import Mathlib

/-!
Shallow embedding of the ML-deployment reconciliation operator
(`src/operator/main.py`) and proofs about its manifest builders,
trigger handlers and status reporting.

Modelling conventions:
* Python dicts with known keys become structures; `dict.get(k, d)`
  becomes `Option.getD`.
* A cluster API call's response is an input to the handler: `none`
  means success, `some e` means the call raised `e`.  A handler is a
  pure function of the spec, the stored status, and the response of
  each call it can issue; it returns the ordered trace of calls it
  actually issued together with its outcome.
* `kubernetes.client.exceptions.ApiException` with status code `s`
  is `ApiErr.api s msg`; any other exception is `ApiErr.other msg`;
  `str(e)` is `ApiErr.text`.
* Timestamps (`datetime.utcnow().isoformat()`) are an opaque `now`
  string passed in.
-/

/-- `spec["autoscaling"]` block: all fields optional in the input dict. -/
structure AutoscalingSpec where
  enabled : Option Bool
  minReplicas : Option Nat
  maxReplicas : Option Nat
  targetCPUUtilizationPercentage : Option Nat
deriving DecidableEq, Repr

/-- `spec["resources"]` block: `requests` / `limits` are free-form
string-to-string dicts, modelled as association lists. -/
structure ResourcesSpec where
  requests : Option (List (String × String))
  limits : Option (List (String × String))
deriving DecidableEq, Repr

/-- A ModelDeployment spec dict as the handlers read it. -/
structure ModelDeploymentSpec where
  modelName : String
  modelVersion : Nat
  replicas : Option Nat
  resources : Option ResourcesSpec
  environment : Option String
  autoscaling : Option AutoscalingSpec
deriving DecidableEq, Repr

/-- An HTTP probe block of the pod template. -/
structure Probe where
  path : String
  port : Nat
  initialDelaySeconds : Nat
  periodSeconds : Nat
  timeoutSeconds : Nat
deriving DecidableEq, Repr

/-- One `env` entry of the container. -/
structure EnvVar where
  name : String
  value : String
deriving DecidableEq, Repr

/-- The single container of the workload pod template. -/
structure ContainerSpec where
  name : String
  image : String
  imagePullPolicy : String
  containerPort : Nat
  portName : String
  env : List EnvVar
  resourceRequests : List (String × String)
  resourceLimits : List (String × String)
  livenessProbe : Probe
  readinessProbe : Probe
deriving DecidableEq, Repr

/-- The Deployment manifest produced by `create_inference_deployment`. -/
structure DeploymentManifest where
  name : String
  ns : String
  labels : List (String × String)
  replicas : Nat
  selectorApp : String
  templateLabels : List (String × String)
  container : ContainerSpec
deriving DecidableEq, Repr

/-- The Service manifest produced by `create_inference_service`. -/
structure ServiceManifest where
  name : String
  ns : String
  labels : List (String × String)
  selectorApp : String
  portName : String
  port : Nat
  targetPort : Nat
  serviceType : String
deriving DecidableEq, Repr

/-- The HorizontalPodAutoscaler manifest produced by `create_hpa`. -/
structure HpaManifest where
  name : String
  ns : String
  labels : List (String × String)
  scaleTargetName : String
  minReplicas : Nat
  maxReplicas : Nat
  targetCPUUtilizationPercentage : Nat
deriving DecidableEq, Repr

/-- `create_inference_deployment(spec, name, namespace)`. -/
def create_inference_deployment (spec : ModelDeploymentSpec) (name ns : String) :
    DeploymentManifest :=
  let deployment_name := name ++ "-inference"
  let model_name := spec.modelName
  let model_version := spec.modelVersion
  let replicas := spec.replicas.getD 1
  let resources := spec.resources.getD ⟨none, none⟩
  let environment := spec.environment.getD "development"
  let resource_requests := resources.requests.getD [("memory", "256Mi"), ("cpu", "250m")]
  let resource_limits := resources.limits.getD [("memory", "512Mi"), ("cpu", "500m")]
  { name := deployment_name
    ns := ns
    labels := [("app", deployment_name), ("component", "inference-server"),
      ("model-name", model_name), ("model-version", toString model_version),
      ("environment", environment), ("managed-by", "ml-operator")]
    replicas := replicas
    selectorApp := deployment_name
    templateLabels := [("app", deployment_name), ("component", "inference-server"),
      ("model-name", model_name), ("model-version", toString model_version),
      ("environment", environment)]
    container :=
      { name := "inference-server"
        image := "ml-platform/inference-server:latest"
        imagePullPolicy := "Never"
        containerPort := 8001
        portName := "http"
        env := [⟨"MODEL_NAME", model_name⟩, ⟨"MODEL_VERSION", toString model_version⟩,
          ⟨"MODEL_REGISTRY_URL", "http://model-registry-service:8000"⟩,
          ⟨"INFERENCE_PORT", "8001"⟩, ⟨"ENVIRONMENT", environment⟩]
        resourceRequests := resource_requests
        resourceLimits := resource_limits
        livenessProbe := ⟨"/health", 8001, 30, 10, 5⟩
        readinessProbe := ⟨"/health", 8001, 10, 5, 3⟩ } }

/-- `create_inference_service(spec, name, namespace)`. -/
def create_inference_service (spec : ModelDeploymentSpec) (name ns : String) :
    ServiceManifest :=
  let deployment_name := name ++ "-inference"
  let service_name := name ++ "-service"
  let model_name := spec.modelName
  let model_version := spec.modelVersion
  let environment := spec.environment.getD "development"
  { name := service_name
    ns := ns
    labels := [("app", deployment_name), ("component", "inference-server"),
      ("model-name", model_name), ("model-version", toString model_version),
      ("environment", environment), ("managed-by", "ml-operator")]
    selectorApp := deployment_name
    portName := "http"
    port := 8001
    targetPort := 8001
    serviceType := "ClusterIP" }

/-- `create_hpa(spec, name, namespace)`: `None` unless
`spec.get("autoscaling", {}).get("enabled", False)` is truthy. -/
def create_hpa (spec : ModelDeploymentSpec) (name ns : String) :
    Option HpaManifest :=
  let autoscaling := spec.autoscaling.getD ⟨none, none, none, none⟩
  if !(autoscaling.enabled.getD false) then none
  else
    let deployment_name := name ++ "-inference"
    let hpa_name := name ++ "-hpa"
    some
      { name := hpa_name
        ns := ns
        labels := [("app", deployment_name), ("component", "inference-server"),
          ("managed-by", "ml-operator")]
        scaleTargetName := deployment_name
        minReplicas := autoscaling.minReplicas.getD 1
        maxReplicas := autoscaling.maxReplicas.getD 5
        targetCPUUtilizationPercentage :=
          autoscaling.targetCPUUtilizationPercentage.getD 70 }

/-- An exception raised by a cluster API call:
`api s m` is `kubernetes.client.exceptions.ApiException` with HTTP
status `s`; `other m` is any other exception.  `m` models `str(e)`. -/
inductive ApiErr where
  | api (status : Nat) (msg : String)
  | other (msg : String)
deriving DecidableEq, Repr

/-- `str(e)` of an exception. -/
def ApiErr.text : ApiErr → String
  | .api _ m => m
  | .other m => m

/-- The `isinstance(e, ApiException) and e.status == 404` test used by
the handlers to recognise "not found". -/
def ApiErr.isNotFound : ApiErr → Bool
  | .api s _ => s == 404
  | .other _ => false

/-- One entry of the `conditions` list of a written status. -/
structure Condition where
  type : String
  status : String
  lastTransitionTime : String
  reason : String
  message : String
deriving DecidableEq, Repr

/-- A status dict returned by a handler.  Keys absent from a given
handler's dict are `none`. -/
structure Status where
  phase : String
  deploymentName : Option String
  serviceName : Option String
  replicas : Option Nat
  readyReplicas : Option Nat
  lastUpdated : String
  conditions : List Condition
deriving DecidableEq, Repr

/-- One cluster API call a handler issued (verb, resource kind, and the
resource name used — for creates, the manifest's `metadata.name`). -/
structure ApiCall where
  verb : String
  kind : String
  resName : String
deriving DecidableEq, Repr

/-- Responses of the cluster to the three create calls of the create
trigger: `none` = success, `some e` = the call raised `e`. -/
structure CreateCalls where
  createDeployment : Option ApiErr
  createService : Option ApiErr
  createHpa : Option ApiErr
deriving DecidableEq, Repr

/-- `create_model_deployment(spec, name, namespace)`:
issues the three creates in order (Deployment, Service, then HPA when
desired), stopping at the first exception, which the outer
`except Exception` turns into a `Failed` status.  Returns the trace of
calls issued and the status dict the handler returns. -/
def create_model_deployment (calls : CreateCalls) (spec : ModelDeploymentSpec)
    (name ns now : String) : List ApiCall × Status :=
  let failSt (e : ApiErr) : Status :=
    { phase := "Failed", deploymentName := none, serviceName := none,
      replicas := none, readyReplicas := none, lastUpdated := now,
      conditions := [{ type := "Ready", status := "False", lastTransitionTime := now,
                       reason := "CreationFailed",
                       message := "Failed to create resources: " ++ e.text }] }
  let deployment := create_inference_deployment spec name ns
  let depCall : ApiCall := ⟨"create", "Deployment", deployment.name⟩
  match calls.createDeployment with
  | some e => ([depCall], failSt e)
  | none =>
    let service := create_inference_service spec name ns
    let svcCall : ApiCall := ⟨"create", "Service", service.name⟩
    match calls.createService with
    | some e => ([depCall, svcCall], failSt e)
    | none =>
      let hpa := create_hpa spec name ns
      let okSt : Status :=
        { phase := "Running", deploymentName := some deployment.name,
          serviceName := some service.name,
          replicas := some (spec.replicas.getD 1), readyReplicas := none,
          lastUpdated := now,
          conditions := [{ type := "Ready", status := "True", lastTransitionTime := now,
                           reason := "DeploymentCreated",
                           message := "ModelDeployment resources created successfully" }] }
      match hpa with
      | some h =>
        let hpaCall : ApiCall := ⟨"create", "HorizontalPodAutoscaler", h.name⟩
        match calls.createHpa with
        | some e => ([depCall, svcCall, hpaCall], failSt e)
        | none => ([depCall, svcCall, hpaCall], okSt)
      | none => ([depCall, svcCall], okSt)

/-- Responses of the cluster to the calls the update trigger can
issue: `none` = success, `some e` = the call raised `e`. -/
structure UpdateCalls where
  patchDeployment : Option ApiErr
  patchService : Option ApiErr
  readHpa : Option ApiErr
  patchHpa : Option ApiErr
  deleteHpa : Option ApiErr
  createHpa : Option ApiErr
deriving DecidableEq, Repr

/-- The inner `try/except ApiException` block of the update trigger
that reads the HPA and then patches, deletes or creates it.  Returns
the calls issued and the exception propagating out of the block, if
any: an `ApiException` with status 404 from the read/patch/delete is
caught and folded into "create if desired, else no-op"; anything else
(and any exception of the create) propagates. -/
def update_hpa_sync (calls : UpdateCalls) (hpa : Option HpaManifest)
    (hpa_name : String) : List ApiCall × Option ApiErr :=
  let readCall : ApiCall := ⟨"read", "HorizontalPodAutoscaler", hpa_name⟩
  let onExc (tr : List ApiCall) (e : ApiErr) : List ApiCall × Option ApiErr :=
    if e.isNotFound then
      match hpa with
      | some h => (tr ++ [⟨"create", "HorizontalPodAutoscaler", h.name⟩], calls.createHpa)
      | none => (tr, none)
    else (tr, some e)
  match calls.readHpa with
  | some e => onExc [readCall] e
  | none =>
    match hpa with
    | some _ =>
      let patchCall : ApiCall := ⟨"patch", "HorizontalPodAutoscaler", hpa_name⟩
      match calls.patchHpa with
      | some e => onExc [readCall, patchCall] e
      | none => ([readCall, patchCall], none)
    | none =>
      let delCall : ApiCall := ⟨"delete", "HorizontalPodAutoscaler", hpa_name⟩
      match calls.deleteHpa with
      | some e => onExc [readCall, delCall] e
      | none => ([readCall, delCall], none)

/-- `update_model_deployment(spec, name, namespace, old, new)`:
patches the Deployment then the Service unconditionally, then runs the
HPA read-then-act block; the outer `except Exception` turns any
propagated exception into a `Failed` status. -/
def update_model_deployment (calls : UpdateCalls) (spec : ModelDeploymentSpec)
    (name ns now : String) : List ApiCall × Status :=
  let failSt (e : ApiErr) : Status :=
    { phase := "Failed", deploymentName := none, serviceName := none,
      replicas := none, readyReplicas := none, lastUpdated := now,
      conditions := [{ type := "Ready", status := "False", lastTransitionTime := now,
                       reason := "UpdateFailed",
                       message := "Failed to update resources: " ++ e.text }] }
  let deployment_name := name ++ "-inference"
  let depCall : ApiCall := ⟨"patch", "Deployment", deployment_name⟩
  match calls.patchDeployment with
  | some e => ([depCall], failSt e)
  | none =>
    let service_name := name ++ "-service"
    let svcCall : ApiCall := ⟨"patch", "Service", service_name⟩
    match calls.patchService with
    | some e => ([depCall, svcCall], failSt e)
    | none =>
      let hpa := create_hpa spec name ns
      let hpa_name := name ++ "-hpa"
      let hpaRes := update_hpa_sync calls hpa hpa_name
      let tr := [depCall, svcCall] ++ hpaRes.1
      match hpaRes.2 with
      | some e => (tr, failSt e)
      | none =>
        (tr,
          { phase := "Running", deploymentName := some deployment_name,
            serviceName := some (name ++ "-service"),
            replicas := some (spec.replicas.getD 1), readyReplicas := none,
            lastUpdated := now,
            conditions := [{ type := "Ready", status := "True", lastTransitionTime := now,
                             reason := "DeploymentUpdated",
                             message := "ModelDeployment updated successfully" }] })

/-- Responses of the cluster to the three delete calls of the delete
trigger: `none` = success, `some e` = the call raised `e`. -/
structure DeleteCalls where
  deleteDeployment : Option ApiErr
  deleteService : Option ApiErr
  deleteHpa : Option ApiErr
deriving DecidableEq, Repr

/-- The per-call `except ApiException as e: if e.status != 404: raise`
wrapper of the delete trigger: a 404 is swallowed, every other
exception propagates. -/
def fold404 (r : Option ApiErr) : Option ApiErr :=
  match r with
  | none => none
  | some e => if e.isNotFound then none else some e

/-- `delete_model_deployment(spec, name, namespace)`: deletes the
Deployment, the Service, then the HPA, each delete wrapped in a
404-swallowing `try`.  A non-404 exception re-raised by a wrapper
propagates through the outer `except Exception` (which re-raises it),
skipping the remaining deletes.  The handler returns no status dict;
its outcome is `some e` when it raises `e` and `none` on success. -/
def delete_model_deployment (calls : DeleteCalls) (name ns : String) :
    List ApiCall × Option ApiErr :=
  let deployment_name := name ++ "-inference"
  let service_name := name ++ "-service"
  let hpa_name := name ++ "-hpa"
  let depCall : ApiCall := ⟨"delete", "Deployment", deployment_name⟩
  let svcCall : ApiCall := ⟨"delete", "Service", service_name⟩
  let hpaCall : ApiCall := ⟨"delete", "HorizontalPodAutoscaler", hpa_name⟩
  match fold404 calls.deleteDeployment with
  | some e => ([depCall], some e)
  | none =>
    match fold404 calls.deleteService with
    | some e => ([depCall, svcCall], some e)
    | none =>
      match fold404 calls.deleteHpa with
      | some e => ([depCall, svcCall, hpaCall], some e)
      | none => ([depCall, svcCall, hpaCall], none)

/-- What `read_namespaced_deployment_status` reports on success:
`status.ready_replicas` (possibly `None`) and `spec.replicas`. -/
structure DeploymentObservation where
  readyReplicas : Option Nat
  replicas : Nat
deriving DecidableEq, Repr

/-- Response of the cluster to the drift-check's single read. -/
structure MonitorCalls where
  readDeploymentStatus : Except ApiErr DeploymentObservation
deriving Repr

/-- The fields of the stored status the drift check reads
(`status.get('phase')`, `status.get('readyReplicas')`). -/
structure StoredStatus where
  phase : Option String
  readyReplicas : Option Nat
deriving DecidableEq, Repr

/-- `monitor_deployments(spec, name, namespace, status)`: reads the
workload status; on success computes `ready_replicas or 0`, the new
phase, and returns a status dict only when the phase or the ready
count changed (`none` = no status write); on a read exception returns
a `Failed` status. -/
def monitor_deployments (calls : MonitorCalls) (stored : StoredStatus)
    (name ns now : String) : List ApiCall × Option Status :=
  let deployment_name := name ++ "-inference"
  let readCall : ApiCall := ⟨"read", "Deployment", deployment_name⟩
  match calls.readDeploymentStatus with
  | .error e =>
    ([readCall], some
      { phase := "Failed", deploymentName := none, serviceName := none,
        replicas := none, readyReplicas := none, lastUpdated := now,
        conditions := [{ type := "Ready", status := "False", lastTransitionTime := now,
                         reason := "HealthCheckFailed",
                         message := "Health check failed: " ++ e.text }] })
  | .ok obs =>
    let ready_replicas := obs.readyReplicas.getD 0
    let desired_replicas := obs.replicas
    let current_phase := stored.phase.getD "Unknown"
    let new_phase := if ready_replicas == desired_replicas then "Running" else "Updating"
    if current_phase != new_phase || stored.readyReplicas != some ready_replicas then
      ([readCall], some
        { phase := new_phase, deploymentName := none, serviceName := none,
          replicas := some desired_replicas, readyReplicas := some ready_replicas,
          lastUpdated := now,
          conditions := [{ type := "Ready",
                           status := if new_phase == "Running" then "True" else "False",
                           lastTransitionTime := now, reason := "HealthCheck",
                           message := toString ready_replicas ++ "/" ++
                             toString desired_replicas ++ " replicas ready" }] })
    else ([readCall], none)

/-- Effect of a handler's status write on the stored fields the drift
check reads (the status sink replaces the stored status with the
written one). -/
def applyWrite (w : Status) : StoredStatus :=
  { phase := some w.phase, readyReplicas := w.readyReplicas }

/-! ### Shared sample inputs and predicates -/

/-- A sample spec with autoscaling enabled and all optional autoscaler
fields absent. -/
def specEnabled : ModelDeploymentSpec :=
  ⟨"iris-classifier", 1, some 2, none, none, some ⟨some true, none, none, none⟩⟩

/-- A sample spec with autoscaling present but disabled. -/
def specDisabled : ModelDeploymentSpec :=
  ⟨"iris-classifier", 1, some 2, none, none, some ⟨some false, none, none, none⟩⟩

/-- Checks that a call's resource name is the one derived from the
parent name for that resource kind. -/
def callNameOK (name : String) (c : ApiCall) : Bool :=
  if c.kind == "Deployment" then c.resName == name ++ "-inference"
  else if c.kind == "Service" then c.resName == name ++ "-service"
  else if c.kind == "HorizontalPodAutoscaler" then c.resName == name ++ "-hpa"
  else true

/-- Every condition of the status has `status` `"True"` exactly when
the status's phase is `Running` and `"False"` otherwise. -/
def readyTracksPhase (s : Status) : Bool :=
  s.conditions.all fun c => c.status == (if s.phase == "Running" then "True" else "False")

/-- `readyTracksPhase` lifted to an optional status write (`none` = no
write performed). -/
def readyTracksPhaseWrite : Option Status → Bool
  | none => true
  | some s => readyTracksPhase s

/-- The status carries exactly one condition, of type `Ready`. -/
def singleReadyCondition (s : Status) : Bool :=
  match s.conditions with
  | [c] => c.type == "Ready"
  | _ => false

/-- `singleReadyCondition` lifted to an optional status write. -/
def singleReadyConditionWrite : Option Status → Bool
  | none => true
  | some s => singleReadyCondition s

/-- The cluster's response to a create call for an object that already
exists (per the §6 resource-store contract): HTTP 409 Conflict. -/
def conflictErr : ApiErr := .api 409 "409 Conflict: already exists"

/-- The status dicts the delete trigger writes back: the handler body
(`delete_model_deployment`, src lines 383-431) contains no status
return and no status patch at all — on success it returns `None`, on
failure it re-raises — so its list of status writes is empty on every
input. -/
def delete_status_writes (_ : DeleteCalls) (_ _ : String) : List Status := []


/-- Name of the workload manifest, by definition of the builder. -/
theorem create_inference_deployment_name_eq (spec : ModelDeploymentSpec)
    (name ns : String) :
    (create_inference_deployment spec name ns).name = name ++ "-inference" := rfl

/-- Name of the service manifest, by definition of the builder. -/
theorem create_inference_service_name_eq (spec : ModelDeploymentSpec)
    (name ns : String) :
    (create_inference_service spec name ns).name = name ++ "-service" := rfl

/-- An emitted autoscaler manifest is named `{name}-hpa` and targets
the workload `{name}-inference`. -/
theorem create_hpa_some_fields (spec : ModelDeploymentSpec) (name ns : String)
    (h : HpaManifest) (hH : create_hpa spec name ns = some h) :
    h.name = name ++ "-hpa" ∧ h.scaleTargetName = name ++ "-inference" := by
  simp only [create_hpa] at hH
  split at hH
  · exact absurd hH (by simp)
  · injection hH with hh
    subst hh
    exact ⟨rfl, rfl⟩

/-- `create_hpa` emits a manifest exactly when the spec has an
autoscaling block whose `enabled` field is `true`. -/
theorem create_hpa_none_iff (spec : ModelDeploymentSpec) (name ns : String) :
    create_hpa spec name ns = none ↔
      ∀ a, spec.autoscaling = some a → a.enabled ≠ some true := by
  rcases hA : spec.autoscaling with _ | a
  · simp [create_hpa, hA]
  · rcases hE : a.enabled with _ | b
    · simp [create_hpa, hA, hE]
    · cases b <;> simp [create_hpa, hA, hE]

/-! ### C7 — autoscaler manifest builder -/

/-- C7: `create_hpa` returns a manifest iff `autoscaling.enabled` is
true in the spec (`none` otherwise, including when the autoscaling
block is absent); an emitted manifest is named `{name}-hpa`, targets
the workload `{name}-inference` by name, and carries `minReplicas`
defaulting to 1, `maxReplicas` defaulting to 5, and
`targetCPUUtilizationPercentage` defaulting to 70 when those fields
are absent. -/
theorem create_hpa_iff_autoscaling_enabled (spec : ModelDeploymentSpec)
    (name ns : String) :
    (create_hpa spec name ns = none ↔
      ∀ a, spec.autoscaling = some a → a.enabled ≠ some true)
    ∧ (∀ a, spec.autoscaling = some a → a.enabled = some true →
        ∃ h, create_hpa spec name ns = some h
          ∧ h.name = name ++ "-hpa"
          ∧ h.scaleTargetName = name ++ "-inference"
          ∧ h.minReplicas = a.minReplicas.getD 1
          ∧ h.maxReplicas = a.maxReplicas.getD 5
          ∧ h.targetCPUUtilizationPercentage =
              a.targetCPUUtilizationPercentage.getD 70) := by
  refine ⟨create_hpa_none_iff spec name ns, ?_⟩
  intro a hA hE
  have hH : create_hpa spec name ns = some
      { name := name ++ "-hpa", ns := ns,
        labels := [("app", name ++ "-inference"), ("component", "inference-server"),
          ("managed-by", "ml-operator")],
        scaleTargetName := name ++ "-inference",
        minReplicas := a.minReplicas.getD 1,
        maxReplicas := a.maxReplicas.getD 5,
        targetCPUUtilizationPercentage :=
          a.targetCPUUtilizationPercentage.getD 70 } := by
    simp [create_hpa, hA, hE]
  exact ⟨_, hH, rfl, rfl, rfl, rfl, rfl⟩

/-- Witness for C7 at a concrete enabled spec. -/
theorem create_hpa_iff_autoscaling_enabled_witness :
    ∃ h, create_hpa specEnabled "iris-classifier" "default" = some h
      ∧ h.name = "iris-classifier" ++ "-hpa"
      ∧ h.scaleTargetName = "iris-classifier" ++ "-inference"
      ∧ h.minReplicas = 1 ∧ h.maxReplicas = 5
      ∧ h.targetCPUUtilizationPercentage = 70 := by
  obtain ⟨h, h1, h2, h3, h4, h5, h6⟩ :=
    (create_hpa_iff_autoscaling_enabled specEnabled "iris-classifier" "default").2
      ⟨some true, none, none, none⟩ rfl rfl
  exact ⟨h, h1, h2, h3, h4, h5, h6⟩

/-! ### C8 — deterministic child names in every handler -/

/-- Every call the create trigger issues uses the derived child name
for its resource kind, under every cluster response. -/
theorem create_trace_names (cc : CreateCalls) (spec : ModelDeploymentSpec)
    (name ns now : String) :
    (create_model_deployment cc spec name ns now).1.all (callNameOK name) = true := by
  obtain ⟨cd, cs, ch⟩ := cc
  rcases hH : create_hpa spec name ns with _ | h
  · cases cd <;> cases cs <;> cases ch <;>
      simp [create_model_deployment, hH, callNameOK,
        create_inference_deployment_name_eq, create_inference_service_name_eq]
  · have hh : h.name = name ++ "-hpa" := (create_hpa_some_fields spec name ns h hH).1
    cases cd <;> cases cs <;> cases ch <;>
      simp [create_model_deployment, hH, hh, callNameOK,
        create_inference_deployment_name_eq, create_inference_service_name_eq]

/-- Every call the HPA block of the update trigger issues uses the
name it is given, which the handler derives as `{name}-hpa`. -/
theorem update_hpa_sync_trace_names (calls : UpdateCalls) (hpa : Option HpaManifest)
    (name : String) (hn : ∀ h, hpa = some h → h.name = name ++ "-hpa") :
    (update_hpa_sync calls hpa (name ++ "-hpa")).1.all (callNameOK name) = true := by
  obtain ⟨ud, us, ur, up, udel, ucr⟩ := calls
  rcases hpa with _ | h
  · cases ur <;> cases up <;> cases udel <;>
      simp [update_hpa_sync, callNameOK] <;> split_ifs <;> simp [callNameOK]
  · have hh : h.name = name ++ "-hpa" := hn h rfl
    cases ur <;> cases up <;> cases udel <;>
      simp [update_hpa_sync, callNameOK, hh] <;> split_ifs <;> simp [callNameOK, hh]

/-- Every call the update trigger issues uses the derived child name
for its resource kind, under every cluster response. -/
theorem update_trace_names (uc : UpdateCalls) (spec : ModelDeploymentSpec)
    (name ns now : String) :
    (update_model_deployment uc spec name ns now).1.all (callNameOK name) = true := by
  obtain ⟨ud, us, ur, up, udel, ucr⟩ := uc
  cases ud with
  | some e => simp [update_model_deployment, callNameOK]
  | none =>
    cases us with
    | some e => simp [update_model_deployment, callNameOK]
    | none =>
      have ht := update_hpa_sync_trace_names ⟨none, none, ur, up, udel, ucr⟩
        (create_hpa spec name ns) name
        (fun h hh => (create_hpa_some_fields spec name ns h hh).1)
      rcases hR : update_hpa_sync ⟨none, none, ur, up, udel, ucr⟩
          (create_hpa spec name ns) (name ++ "-hpa") with ⟨tr2, res2⟩
      rw [hR] at ht
      cases res2 <;> simp_all [update_model_deployment, hR, callNameOK]

/-- Every call the delete trigger issues uses the derived child name
for its resource kind, under every cluster response. -/
theorem delete_trace_names (dCalls : DeleteCalls) (name ns : String) :
    (delete_model_deployment dCalls name ns).1.all (callNameOK name) = true := by
  obtain ⟨dd, ds, dh⟩ := dCalls
  cases h1 : fold404 dd <;> cases h2 : fold404 ds <;> cases h3 : fold404 dh <;>
    simp [delete_model_deployment, h1, h2, h3, callNameOK]

/-- The drift check's single read uses the derived workload name,
under every cluster response. -/
theorem monitor_trace_names (mc : MonitorCalls) (stored : StoredStatus)
    (name ns now : String) :
    (monitor_deployments mc stored name ns now).1.all (callNameOK name) = true := by
  obtain ⟨mr⟩ := mc
  cases mr with
  | error e => simp [monitor_deployments, callNameOK]
  | ok obs =>
    simp only [monitor_deployments]
    split <;> split <;> simp [callNameOK]

/-- C8: the derived child names are deterministic pure functions of
the parent name alone — the workload manifest is `{name}-inference`,
the service manifest `{name}-service`, any emitted autoscaler manifest
`{name}-hpa` — and every cluster call every trigger handler issues,
under every cluster response, uses exactly the derived name for its
resource kind. -/
theorem child_names_deterministic (spec : ModelDeploymentSpec)
    (name ns now : String) (cc : CreateCalls) (uc : UpdateCalls)
    (dc : DeleteCalls) (mc : MonitorCalls) (stored : StoredStatus) :
    (create_inference_deployment spec name ns).name = name ++ "-inference"
    ∧ (create_inference_service spec name ns).name = name ++ "-service"
    ∧ (∀ h, create_hpa spec name ns = some h → h.name = name ++ "-hpa")
    ∧ (create_model_deployment cc spec name ns now).1.all (callNameOK name) = true
    ∧ (update_model_deployment uc spec name ns now).1.all (callNameOK name) = true
    ∧ (delete_model_deployment dc name ns).1.all (callNameOK name) = true
    ∧ (monitor_deployments mc stored name ns now).1.all (callNameOK name) = true :=
  ⟨rfl, rfl, fun h hh => (create_hpa_some_fields spec name ns h hh).1,
    create_trace_names cc spec name ns now, update_trace_names uc spec name ns now,
    delete_trace_names dc name ns, monitor_trace_names mc stored name ns now⟩

/-- Witness for C8 at concrete inputs. -/
theorem child_names_deterministic_witness :
    (create_inference_deployment specEnabled "iris-classifier" "default").name
      = "iris-classifier" ++ "-inference"
    ∧ (delete_model_deployment ⟨none, none, none⟩ "iris-classifier" "default").1.all
        (callNameOK "iris-classifier") = true := by
  have h := child_names_deterministic specEnabled "iris-classifier" "default" "t0"
    ⟨none, none, none⟩ ⟨none, none, none, none, none, none⟩ ⟨none, none, none⟩
    ⟨.ok ⟨some 2, 2⟩⟩ ⟨none, none⟩
  exact ⟨h.1, h.2.2.2.2.2.1⟩

/-! ### C10 — missing readyReplicas treated as 0 -/

/-- C10: during a drift check, a cluster report with no
`readyReplicas` at all is treated exactly like a report of 0 ready
replicas (the handler computes `ready_replicas or 0`); in particular,
for a deployment whose desired replica count is 0 and which reports no
ready replicas, the computed phase is `Running` — every status the
drift check writes for such an observation has phase `Running`. -/
theorem monitor_missing_ready_is_zero (stored : StoredStatus)
    (name ns now : String) (d : Nat) :
    monitor_deployments ⟨.ok ⟨none, d⟩⟩ stored name ns now
      = monitor_deployments ⟨.ok ⟨some 0, d⟩⟩ stored name ns now
    ∧ (∀ w, (monitor_deployments ⟨.ok ⟨none, 0⟩⟩ stored name ns now).2 = some w →
        w.phase = "Running") := by
  constructor
  · rfl
  · intro w hw
    simp only [monitor_deployments] at hw
    split at hw
    · split at hw
      · injection hw with hw
        subst hw
        rfl
      · exact absurd hw (by simp)
    · next h => simp at h

/-- Witness for C10: a stored status with no phase and desired count 0
forces a write, whose phase is `Running`. -/
theorem monitor_missing_ready_is_zero_witness :
    ∃ w, (monitor_deployments ⟨.ok ⟨none, 0⟩⟩ ⟨none, none⟩ "iris-classifier"
        "default" "t0").2 = some w ∧ w.phase = "Running" := by
  refine ⟨_, rfl, ?_⟩
  exact (monitor_missing_ready_is_zero ⟨none, none⟩ "iris-classifier" "default" "t0" 0).2 _ rfl

/-! ### C5 — drift-check phase computation and write suppression -/

/-- C5: for every drift check that successfully reads the workload
status, the new phase is `Running` exactly when the observed ready
replica count (missing = 0) equals the desired replica count and
`Updating` otherwise; a status is written iff the new phase differs
from the stored phase or the observed ready count differs from the
stored `readyReplicas`; and a second drift check with the same
observation, run against the stored status left by the first check's
write, is suppressed — two consecutive unchanged checks produce at
most one write. -/
theorem drift_check_write_policy (stored : StoredStatus)
    (obs : DeploymentObservation) (name ns now now2 : String) :
    (∀ w, (monitor_deployments ⟨.ok obs⟩ stored name ns now).2 = some w →
        (w.phase = "Running" ↔ obs.readyReplicas.getD 0 = obs.replicas)
        ∧ (w.phase = "Updating" ↔ obs.readyReplicas.getD 0 ≠ obs.replicas)
        ∧ w.readyReplicas = some (obs.readyReplicas.getD 0))
    ∧ ((monitor_deployments ⟨.ok obs⟩ stored name ns now).2 = none ↔
        (stored.phase.getD "Unknown"
            = (if obs.readyReplicas.getD 0 = obs.replicas then "Running" else "Updating")
          ∧ stored.readyReplicas = some (obs.readyReplicas.getD 0)))
    ∧ (∀ w, (monitor_deployments ⟨.ok obs⟩ stored name ns now).2 = some w →
        (monitor_deployments ⟨.ok obs⟩ (applyWrite w) name ns now2).2 = none) := by
  refine ⟨?_, ?_, ?_⟩
  · intro w hw
    simp only [monitor_deployments] at hw
    split at hw
    · next h1 =>
      split at hw
      · injection hw with hw
        subst hw
        simp only [beq_iff_eq] at h1
        refine ⟨by simp [h1], by simp [h1], rfl⟩
      · exact absurd hw (by simp)
    · next h1 =>
      split at hw
      · injection hw with hw
        subst hw
        simp only [beq_iff_eq] at h1
        refine ⟨by simp [h1], by simp [h1], rfl⟩
      · exact absurd hw (by simp)
  · simp only [monitor_deployments]
    split
    · next h1 =>
      simp only [beq_iff_eq] at h1
      split
      · next h2 =>
        simp only [Bool.or_eq_true, bne_iff_ne] at h2
        rw [h1] at h2
        simp [h1]
        tauto
      · next h2 =>
        simp only [Bool.or_eq_true, bne_iff_ne] at h2
        push_neg at h2
        simp [h1, h2.1, h2.2]
    · next h1 =>
      simp only [beq_iff_eq] at h1
      split
      · next h2 =>
        simp only [Bool.or_eq_true, bne_iff_ne] at h2
        simp [h1]
        tauto
      · next h2 =>
        simp only [Bool.or_eq_true, bne_iff_ne] at h2
        push_neg at h2
        simp [h1, h2.1, h2.2]
  · intro w hw
    simp only [monitor_deployments] at hw
    split at hw
    · next h1 =>
      split at hw
      · injection hw with hw
        subst hw
        simp [monitor_deployments, applyWrite, h1]
      · exact absurd hw (by simp)
    · next h1 =>
      split at hw
      · injection hw with hw
        subst hw
        simp [monitor_deployments, applyWrite, h1]
      · exact absurd hw (by simp)

/-- Witness for C5: a drift check observing 1/2 ready against a stored
`Running` phase writes an `Updating` status once; the next check with
the same observation is suppressed. -/
theorem drift_check_write_policy_witness :
    ∃ w, (monitor_deployments ⟨.ok ⟨some 1, 2⟩⟩ ⟨some "Running", some 2⟩
        "iris-classifier" "default" "t0").2 = some w
      ∧ w.phase = "Updating"
      ∧ (monitor_deployments ⟨.ok ⟨some 1, 2⟩⟩ (applyWrite w)
          "iris-classifier" "default" "t1").2 = none := by
  have h := drift_check_write_policy ⟨some "Running", some 2⟩ ⟨some 1, 2⟩
    "iris-classifier" "default" "t0" "t1"
  refine ⟨_, rfl, ?_, h.2.2 _ rfl⟩
  exact ((h.1 _ rfl).2.1).2 (by decide)

/-! ### C6 / C9 — shape of every written status -/


/-- C6: every status dict the operator produces — on the create,
update and drift-check triggers, on success and on failure paths alike
(the delete trigger returns no status dict) — has its `Ready`
condition's `status` field equal to `"True"` exactly when the status's
phase is `Running`, and `"False"` otherwise, under every cluster
response. -/
theorem ready_condition_tracks_phase (spec : ModelDeploymentSpec)
    (name ns now : String) (cc : CreateCalls) (uc : UpdateCalls)
    (mc : MonitorCalls) (stored : StoredStatus) :
    readyTracksPhase (create_model_deployment cc spec name ns now).2 = true
    ∧ readyTracksPhase (update_model_deployment uc spec name ns now).2 = true
    ∧ readyTracksPhaseWrite (monitor_deployments mc stored name ns now).2 = true := by
  refine ⟨?_, ?_, ?_⟩
  · obtain ⟨cd, cs, ch⟩ := cc
    rcases hH : create_hpa spec name ns with _ | h <;>
      cases cd <;> cases cs <;> cases ch <;>
      simp [create_model_deployment, hH, readyTracksPhase]
  · obtain ⟨ud, us, ur, up, udel, ucr⟩ := uc
    cases ud with
    | some e => simp [update_model_deployment, readyTracksPhase]
    | none =>
      cases us with
      | some e => simp [update_model_deployment, readyTracksPhase]
      | none =>
        rcases hR : update_hpa_sync ⟨none, none, ur, up, udel, ucr⟩
            (create_hpa spec name ns) (name ++ "-hpa") with ⟨tr2, res2⟩
        cases res2 <;> simp_all [update_model_deployment, readyTracksPhase]
  · obtain ⟨mr⟩ := mc
    cases mr with
    | error e => simp [monitor_deployments, readyTracksPhaseWrite, readyTracksPhase]
    | ok obs =>
      simp only [monitor_deployments]
      split <;> split <;>
        simp [readyTracksPhaseWrite, readyTracksPhase]

/-- C9: every status dict the operator produces — on the create,
update and drift-check triggers, on success and on failure paths alike
(the delete trigger returns no status dict) — carries a `conditions`
list of exactly one element, whose type is `Ready`, under every
cluster response. -/
theorem conditions_single_ready (spec : ModelDeploymentSpec)
    (name ns now : String) (cc : CreateCalls) (uc : UpdateCalls)
    (mc : MonitorCalls) (stored : StoredStatus) :
    singleReadyCondition (create_model_deployment cc spec name ns now).2 = true
    ∧ singleReadyCondition (update_model_deployment uc spec name ns now).2 = true
    ∧ singleReadyConditionWrite (monitor_deployments mc stored name ns now).2 = true := by
  refine ⟨?_, ?_, ?_⟩
  · obtain ⟨cd, cs, ch⟩ := cc
    rcases hH : create_hpa spec name ns with _ | h <;>
      cases cd <;> cases cs <;> cases ch <;>
      simp [create_model_deployment, hH, singleReadyCondition]
  · obtain ⟨ud, us, ur, up, udel, ucr⟩ := uc
    cases ud with
    | some e => simp [update_model_deployment, singleReadyCondition]
    | none =>
      cases us with
      | some e => simp [update_model_deployment, singleReadyCondition]
      | none =>
        rcases hR : update_hpa_sync ⟨none, none, ur, up, udel, ucr⟩
            (create_hpa spec name ns) (name ++ "-hpa") with ⟨tr2, res2⟩
        cases res2 <;> simp_all [update_model_deployment, singleReadyCondition]
  · obtain ⟨mr⟩ := mc
    cases mr with
    | error e => simp [monitor_deployments, singleReadyConditionWrite, singleReadyCondition]
    | ok obs =>
      simp only [monitor_deployments]
      split <;> split <;>
        simp [singleReadyConditionWrite, singleReadyCondition]

/-! ### Helpers for the failure-path claims -/

/-- A string with a nonempty left part is nonempty. -/
theorem append_left_ne_empty (s t : String) (h : 0 < s.length) : s ++ t ≠ "" := by
  intro hc
  have hl := congrArg String.length hc
  rw [String.length_append] at hl
  simp at hl
  omega

/-- An error surviving the delete trigger's 404-swallowing wrapper is
never a "not found". -/
theorem fold404_some_not_notfound (r : Option ApiErr) (e : ApiErr)
    (h : fold404 r = some e) : e.isNotFound = false := by
  rcases r with _ | e1
  · exact absurd h (by simp [fold404])
  · by_cases hnf : e1.isNotFound = true
    · simp [fold404, hnf] at h
    · simp [fold404, hnf] at h
      subst h
      simpa using hnf

/-! ### C1 — Conflict on create is surfaced, not folded into success -/


/-- C1 counterexample: the first create-trigger pass on an empty
cluster (all three creates succeed) ends in phase `Running`, but a
second pass with the identical spec — whose create calls now all
return 409 Conflict because the children already exist — ends in phase
`Failed`, not `Running`: the handler has no Conflict folding, so the
claimed idempotent `Running`/success on both calls is false. -/
theorem create_conflict_counterexample :
    (create_model_deployment ⟨none, none, none⟩ specDisabled
        "iris-classifier" "default" "t0").2.phase = "Running"
    ∧ (create_model_deployment ⟨some conflictErr, some conflictErr, some conflictErr⟩
        specDisabled "iris-classifier" "default" "t1").2.phase = "Failed"
    ∧ ("Failed" : String) ≠ "Running" :=
  ⟨rfl, rfl, by decide⟩

/-- C1 (amended): the create trigger builds the same three child
manifests on both of two identical-spec calls (the builders are pure
functions of the spec), and a pass whose creates all succeed ends in
`Running`; but an "already exists" 409 Conflict raised by any of the
three create calls is not folded into success — it takes the generic
failure path, so that pass ends in phase `Failed`. -/
theorem create_conflict_surfaces_as_failed (spec : ModelDeploymentSpec)
    (name ns now m : String) (calls : CreateCalls) :
    (create_model_deployment ⟨none, none, none⟩ spec name ns now).2.phase = "Running"
    ∧ (calls.createDeployment = some (.api 409 m) →
        (create_model_deployment calls spec name ns now).2.phase = "Failed")
    ∧ (calls.createDeployment = none → calls.createService = some (.api 409 m) →
        (create_model_deployment calls spec name ns now).2.phase = "Failed")
    ∧ (calls.createDeployment = none → calls.createService = none →
        calls.createHpa = some (.api 409 m) →
        (∀ h, create_hpa spec name ns = some h →
          (create_model_deployment calls spec name ns now).2.phase = "Failed")) := by
  refine ⟨?_, ?_, ?_, ?_⟩
  · rcases hH : create_hpa spec name ns with _ | h <;>
      simp [create_model_deployment, hH]
  · intro h1
    simp [create_model_deployment, h1]
  · intro h1 h2
    simp [create_model_deployment, h1, h2]
  · intro h1 h2 h3 h hH
    simp [create_model_deployment, h1, h2, h3, hH]

/-- Witness for C1's amended theorem at concrete inputs. -/
theorem create_conflict_surfaces_as_failed_witness :
    (create_model_deployment ⟨none, none, none⟩ specEnabled
        "iris-classifier" "default" "t0").2.phase = "Running"
    ∧ (create_model_deployment ⟨none, none, some conflictErr⟩ specEnabled
        "iris-classifier" "default" "t1").2.phase = "Failed" := by
  have h := create_conflict_surfaces_as_failed specEnabled "iris-classifier" "default"
    "t1" "409 Conflict: already exists" ⟨none, none, some conflictErr⟩
  exact ⟨h.1, h.2.2.2 rfl rfl rfl _ rfl⟩

/-! ### C2 — delete is fail-fast, not best-effort -/

/-- C2 counterexample: when the workload delete fails with a non-404
error, the delete trigger raises immediately: its trace holds only the
Deployment delete — the Service and HPA deletions are never attempted,
refuting the claim that every later deletion is still attempted. -/
theorem delete_fail_fast_counterexample :
    delete_model_deployment ⟨some (.api 500 "boom"), none, none⟩
        "iris-classifier" "default"
      = ([⟨"delete", "Deployment", "iris-classifier-inference"⟩],
         some (.api 500 "boom")) := by
  decide

/-- C2 (amended): each of the three deletions folds "not found" into
success, and when every deletion succeeds or fails 404 all three are
attempted; but the first non-404 error aborts the pass — it is
re-raised for reporting and the later deletions in the sequence are
NOT attempted (fail-fast rather than best-effort cleanup). -/
theorem delete_fail_fast (calls : DeleteCalls) (name ns : String) (e : ApiErr) :
    (calls.deleteDeployment = some e → e.isNotFound = false →
      delete_model_deployment calls name ns
        = ([⟨"delete", "Deployment", name ++ "-inference"⟩], some e))
    ∧ (fold404 calls.deleteDeployment = none → calls.deleteService = some e →
        e.isNotFound = false →
      delete_model_deployment calls name ns
        = ([⟨"delete", "Deployment", name ++ "-inference"⟩,
            ⟨"delete", "Service", name ++ "-service"⟩], some e))
    ∧ (fold404 calls.deleteDeployment = none → fold404 calls.deleteService = none →
        calls.deleteHpa = some e → e.isNotFound = false →
      delete_model_deployment calls name ns
        = ([⟨"delete", "Deployment", name ++ "-inference"⟩,
            ⟨"delete", "Service", name ++ "-service"⟩,
            ⟨"delete", "HorizontalPodAutoscaler", name ++ "-hpa"⟩], some e))
    ∧ (fold404 calls.deleteDeployment = none → fold404 calls.deleteService = none →
        fold404 calls.deleteHpa = none →
      delete_model_deployment calls name ns
        = ([⟨"delete", "Deployment", name ++ "-inference"⟩,
            ⟨"delete", "Service", name ++ "-service"⟩,
            ⟨"delete", "HorizontalPodAutoscaler", name ++ "-hpa"⟩], none)) := by
  refine ⟨?_, ?_, ?_, ?_⟩
  · intro h1 h2
    have h1f : fold404 calls.deleteDeployment = some e := by simp [fold404, h1, h2]
    simp [delete_model_deployment, h1f]
  · intro h1 h2 h3
    have h2f : fold404 calls.deleteService = some e := by simp [fold404, h2, h3]
    simp [delete_model_deployment, h1, h2f]
  · intro h1 h2 h3 h4
    have h3f : fold404 calls.deleteHpa = some e := by simp [fold404, h3, h4]
    simp [delete_model_deployment, h1, h2, h3f]
  · intro h1 h2 h3
    simp [delete_model_deployment, h1, h2, h3]

/-- Witness for C2's amended theorem at concrete inputs. -/
theorem delete_fail_fast_witness :
    delete_model_deployment ⟨none, some (.api 500 "boom"), none⟩
        "iris-classifier" "default"
      = ([⟨"delete", "Deployment", "iris-classifier" ++ "-inference"⟩,
          ⟨"delete", "Service", "iris-classifier" ++ "-service"⟩],
         some (.api 500 "boom")) := by
  exact (delete_fail_fast ⟨none, some (.api 500 "boom"), none⟩ "iris-classifier"
    "default" (.api 500 "boom")).2.1 rfl rfl rfl

/-! ### C3 — failure reporting: three handlers write, delete raises -/


/-- C3 counterexample: on a delete trigger whose workload delete fails
with a non-404 error, the handler re-raises the error and performs no
status write at all — so there is no status write whose `Ready`
condition embeds the error, refuting "every failure path of every
handler produces a status write". -/
theorem delete_failure_no_status_counterexample :
    (delete_model_deployment ⟨some (.api 403 "Forbidden"), none, none⟩
        "iris-classifier" "default").2 = some (.api 403 "Forbidden")
    ∧ delete_status_writes ⟨some (.api 403 "Forbidden"), none, none⟩
        "iris-classifier" "default" = [] :=
  ⟨by decide, rfl⟩

/-- C3 (amended): every failure path of the create, update and
drift-check handlers produces a status whose single `Ready` condition
carries a non-empty message embedding the error text; the delete
handler instead re-raises the (never-404) error and produces no status
write. -/
theorem failure_status_messages_nonempty (cc : CreateCalls) (uc : UpdateCalls)
    (dCalls : DeleteCalls) (mc : MonitorCalls) (spec : ModelDeploymentSpec)
    (stored : StoredStatus) (name ns now : String) (e : ApiErr) :
    ((create_model_deployment cc spec name ns now).2.phase = "Failed" →
      ∃ e1, (create_model_deployment cc spec name ns now).2.conditions
          = [⟨"Ready", "False", now, "CreationFailed",
              "Failed to create resources: " ++ ApiErr.text e1⟩]
        ∧ "Failed to create resources: " ++ ApiErr.text e1 ≠ "")
    ∧ ((update_model_deployment uc spec name ns now).2.phase = "Failed" →
      ∃ e1, (update_model_deployment uc spec name ns now).2.conditions
          = [⟨"Ready", "False", now, "UpdateFailed",
              "Failed to update resources: " ++ ApiErr.text e1⟩]
        ∧ "Failed to update resources: " ++ ApiErr.text e1 ≠ "")
    ∧ (mc.readDeploymentStatus = .error e →
      (monitor_deployments mc stored name ns now).2.map Status.conditions
          = some [⟨"Ready", "False", now, "HealthCheckFailed",
              "Health check failed: " ++ ApiErr.text e⟩]
        ∧ "Health check failed: " ++ ApiErr.text e ≠ "")
    ∧ ((delete_model_deployment dCalls name ns).2 = some e →
      e.isNotFound = false ∧ delete_status_writes dCalls name ns = []) := by
  refine ⟨?_, ?_, ?_, ?_⟩
  · obtain ⟨cd, cs, ch⟩ := cc
    rcases hH : create_hpa spec name ns with _ | h
    · cases cd with
      | some e1 =>
        exact fun _ => ⟨e1, by simp [create_model_deployment, hH],
          append_left_ne_empty _ _ (by decide)⟩
      | none =>
        cases cs with
        | some e1 =>
          exact fun _ => ⟨e1, by simp [create_model_deployment, hH],
            append_left_ne_empty _ _ (by decide)⟩
        | none =>
          intro hP
          exact absurd hP (by simp [create_model_deployment, hH])
    · cases cd with
      | some e1 =>
        exact fun _ => ⟨e1, by simp [create_model_deployment, hH],
          append_left_ne_empty _ _ (by decide)⟩
      | none =>
        cases cs with
        | some e1 =>
          exact fun _ => ⟨e1, by simp [create_model_deployment, hH],
            append_left_ne_empty _ _ (by decide)⟩
        | none =>
          cases ch with
          | some e1 =>
            exact fun _ => ⟨e1, by simp [create_model_deployment, hH],
              append_left_ne_empty _ _ (by decide)⟩
          | none =>
            intro hP
            exact absurd hP (by simp [create_model_deployment, hH])
  · obtain ⟨ud, us, ur, up, udel, ucr⟩ := uc
    cases ud with
    | some e1 =>
      exact fun _ => ⟨e1, by simp [update_model_deployment],
        append_left_ne_empty _ _ (by decide)⟩
    | none =>
      cases us with
      | some e1 =>
        exact fun _ => ⟨e1, by simp [update_model_deployment],
          append_left_ne_empty _ _ (by decide)⟩
      | none =>
        rcases hR : update_hpa_sync ⟨none, none, ur, up, udel, ucr⟩
            (create_hpa spec name ns) (name ++ "-hpa") with ⟨tr2, res2⟩
        cases res2 with
        | some e1 =>
          refine fun _ => ⟨e1, ?_, append_left_ne_empty _ _ (by decide)⟩
          simp only [update_model_deployment, hR]
        | none =>
          intro hP
          refine absurd hP ?_
          simp only [update_model_deployment, hR]
          simp
  · obtain ⟨mr⟩ := mc
    intro hre
    subst hre
    exact ⟨by simp [monitor_deployments], append_left_ne_empty _ _ (by decide)⟩
  · obtain ⟨dd, ds, dh⟩ := dCalls
    intro hres
    refine ⟨?_, rfl⟩
    cases h1 : fold404 dd with
    | some e1 =>
      simp only [delete_model_deployment, h1] at hres
      injection hres with hres
      subst hres
      exact fold404_some_not_notfound dd _ h1
    | none =>
      cases h2 : fold404 ds with
      | some e1 =>
        simp only [delete_model_deployment, h1, h2] at hres
        injection hres with hres
        subst hres
        exact fold404_some_not_notfound ds _ h2
      | none =>
        cases h3 : fold404 dh with
        | some e1 =>
          simp only [delete_model_deployment, h1, h2, h3] at hres
          injection hres with hres
          subst hres
          exact fold404_some_not_notfound dh _ h3
        | none =>
          exact absurd hres (by simp [delete_model_deployment, h1, h2, h3])

/-- Witness for C3's amended theorem at concrete inputs. -/
theorem failure_status_messages_nonempty_witness :
    ∃ e1, (create_model_deployment ⟨some (.other "boom"), none, none⟩ specDisabled
        "iris-classifier" "default" "t0").2.conditions
      = [⟨"Ready", "False", "t0", "CreationFailed",
          "Failed to create resources: " ++ ApiErr.text e1⟩]
      ∧ "Failed to create resources: " ++ ApiErr.text e1 ≠ "" := by
  exact (failure_status_messages_nonempty ⟨some (.other "boom"), none, none⟩
    ⟨none, none, none, none, none, none⟩ ⟨none, none, none⟩ ⟨.ok ⟨some 2, 2⟩⟩
    specDisabled ⟨none, none⟩ "iris-classifier" "default" "t0" (.other "x")).1 rfl

/-! ### C4 — where "not found" is folded and where it is surfaced -/

/-- C4 counterexample: an update trigger whose workload patch raises a
404 ends in a `Failed` status — the generic `except Exception` catches
it, so a "not found" on the workload patch IS surfaced as a pass
failure, refuting the claim that it is folded into a no-op/create
branch in every trigger. -/
theorem update_patch_404_failed_counterexample :
    (update_model_deployment
        ⟨some (.api 404 "deployments.apps iris-classifier-inference not found"),
         none, none, none, none, none⟩
        specDisabled "iris-classifier" "default" "t0").2.phase = "Failed"
    ∧ ("Failed" : String) ≠ "Running" :=
  ⟨rfl, by decide⟩

/-- C4 (amended): a "not found" response is folded into the
appropriate no-op/create branch by the delete trigger (all three
deletes) and by the update trigger's autoscaler read-then-act block
(404 leads to create-if-desired/no-op); but a 404 raised by the
workload or endpoint patch during an update, or by the workload status
read during a drift check, is surfaced as a `Failed` status. -/
theorem notfound_folding_by_trigger (dCalls : DeleteCalls) (uc : UpdateCalls)
    (spec : ModelDeploymentSpec) (stored : StoredStatus)
    (name ns now m : String) :
    (fold404 dCalls.deleteDeployment = none → fold404 dCalls.deleteService = none →
      fold404 dCalls.deleteHpa = none →
      (delete_model_deployment dCalls name ns).2 = none)
    ∧ (uc.patchDeployment = none → uc.patchService = none →
        uc.readHpa = some (.api 404 m) → uc.createHpa = none →
        (update_model_deployment uc spec name ns now).2.phase = "Running")
    ∧ (uc.patchDeployment = some (.api 404 m) →
        (update_model_deployment uc spec name ns now).2.phase = "Failed")
    ∧ (uc.patchDeployment = none → uc.patchService = some (.api 404 m) →
        (update_model_deployment uc spec name ns now).2.phase = "Failed")
    ∧ (∀ w, (monitor_deployments ⟨.error (.api 404 m)⟩ stored name ns now).2 = some w →
        w.phase = "Failed") := by
  refine ⟨?_, ?_, ?_, ?_, ?_⟩
  · intro h1 h2 h3
    simp [delete_model_deployment, h1, h2, h3]
  · intro h1 h2 h3 h4
    obtain ⟨ud, us, ur, up, udel, ucr⟩ := uc
    simp only at h1 h2 h3 h4
    subst h1 h2 h3 h4
    rcases hH : create_hpa spec name ns with _ | h <;>
      simp [update_model_deployment, update_hpa_sync, hH, ApiErr.isNotFound]
  · intro h1
    simp [update_model_deployment, h1]
  · intro h1 h2
    simp [update_model_deployment, h1, h2]
  · intro w hw
    simp only [monitor_deployments] at hw
    injection hw with hw
    subst hw
    rfl

/-- Witness for C4's amended theorem at concrete inputs. -/
theorem notfound_folding_by_trigger_witness :
    (delete_model_deployment ⟨some (.api 404 "nf"), some (.api 404 "nf"), none⟩
        "iris-classifier" "default").2 = none
    ∧ (update_model_deployment ⟨none, none, some (.api 404 "nf"), none, none, none⟩
        specEnabled "iris-classifier" "default" "t0").2.phase = "Running" := by
  have h := notfound_folding_by_trigger
    ⟨some (.api 404 "nf"), some (.api 404 "nf"), none⟩
    ⟨none, none, some (.api 404 "nf"), none, none, none⟩
    specEnabled ⟨none, none⟩ "iris-classifier" "default" "t0" "nf"
  exact ⟨h.1 rfl rfl rfl, h.2.1 rfl rfl rfl rfl⟩
